import Mathlib

/-!
Verification of the getimg client library: a shallow embedding of the
request/response contract and client dispatch layer (src/client.rs,
src/request.rs, src/response.rs) together with the base64 codec used by
src/utils.rs (the `base64` crate's `general_purpose::STANDARD` engine,
modelled after its documented behaviour: standard alphabet, canonical
padding required on decode, trailing bits rejected).

Bytes are `Nat` values below 256; JSON numbers are exact rationals.
-/

namespace Base64

/-- The standard base64 alphabet: sextet value to character. -/
def b64Char (n : Nat) : Char :=
  if n < 26 then Char.ofNat (65 + n)
  else if n < 52 then Char.ofNat (71 + n)
  else if n < 62 then Char.ofNat (n - 4)
  else if n = 62 then '+'
  else '/'

/-- Inverse of the standard alphabet: character to sextet value, `none`
for characters outside the alphabet (including the padding char). -/
def b64Index (c : Char) : Option Nat :=
  if 'A' ≤ c ∧ c ≤ 'Z' then some (c.toNat - 65)
  else if 'a' ≤ c ∧ c ≤ 'z' then some (c.toNat - 71)
  else if '0' ≤ c ∧ c ≤ '9' then some (c.toNat + 4)
  else if c = '+' then some 62
  else if c = '/' then some 63
  else none

/-- Decode failures of the base64 engine. -/
inductive DecodeError where
  | invalidByte
  | invalidLength
  | invalidPadding
  | invalidLastSymbol
deriving Repr, DecidableEq

/-- Standard base64 encoding with padding, three input bytes per four
output characters. -/
def encodeBytes : List Nat → List Char
  | [] => []
  | [b1] =>
      [b64Char (b1 / 4), b64Char (b1 % 4 * 16), '=', '=']
  | [b1, b2] =>
      [b64Char (b1 / 4), b64Char (b1 % 4 * 16 + b2 / 16), b64Char (b2 % 16 * 4), '=']
  | b1 :: b2 :: b3 :: rest =>
      b64Char (b1 / 4) :: b64Char (b1 % 4 * 16 + b2 / 16) ::
      b64Char (b2 % 16 * 4 + b3 / 64) :: b64Char (b3 % 64) :: encodeBytes rest

/-- Standard base64 decoding: input must consist of four-character groups,
padding only in the final group, non-canonical trailing bits rejected. -/
def decodeBytes : List Char → Except DecodeError (List Nat)
  | [] => .ok []
  | c1 :: c2 :: c3 :: c4 :: rest =>
    match b64Index c1, b64Index c2 with
    | some s1, some s2 =>
      if c3 = '=' then
        if c4 = '=' then
          if rest.isEmpty then
            if s2 % 16 = 0 then .ok [s1 * 4 + s2 / 16]
            else .error .invalidLastSymbol
          else .error .invalidPadding
        else .error .invalidPadding
      else
        match b64Index c3 with
        | some s3 =>
          if c4 = '=' then
            if rest.isEmpty then
              if s3 % 4 = 0 then .ok [s1 * 4 + s2 / 16, s2 % 16 * 16 + s3 / 4]
              else .error .invalidLastSymbol
            else .error .invalidPadding
          else
            match b64Index c4 with
            | some s4 =>
              match decodeBytes rest with
              | .ok bs => .ok ((s1 * 4 + s2 / 16) :: (s2 % 16 * 16 + s3 / 4) ::
                               (s3 % 4 * 64 + s4) :: bs)
              | .error e => .error e
            | none => .error .invalidByte
        | none => .error .invalidByte
    | _, _ => .error .invalidByte
  | _ => .error .invalidLength

/-- `STANDARD.encode`: bytes to base64 text. -/
def encode (bs : List Nat) : String := String.mk (encodeBytes bs)

/-- `STANDARD.decode`: base64 text to bytes, or a `DecodeError`. -/
def decode (s : String) : Except DecodeError (List Nat) := decodeBytes s.data

end Base64

/-! ## JSON values, as produced by serde_json serialization -/

/-- A JSON value tree; numbers are exact rationals. -/
inductive Json where
  | null
  | bool (b : Bool)
  | num (q : ℚ)
  | str (s : String)
  | obj (fields : List (String × Json))

/-- Look a key up in a JSON object's field list (first occurrence). -/
def jsonLookup (fields : List (String × Json)) (k : String) : Option Json :=
  match fields with
  | [] => none
  | (k2, v) :: rest => if k2 == k then some v else jsonLookup rest k

/-- The keys of a serialized JSON object, in serialization order. -/
def jsonKeys : Json → List String
  | .obj fields => fields.map (fun p => p.1)
  | _ => []

/-- The field list of a serialized JSON object. -/
def jsonObjFields : Json → List (String × Json)
  | .obj fields => fields
  | _ => []

/-- serde serialization of `Option<String>`: `None` becomes JSON `null`. -/
def optStrJson : Option String → Json
  | none => .null
  | some s => .str s

/-- serde serialization of `Option<usize>`: `None` becomes JSON `null`. -/
def optNatJson : Option Nat → Json
  | none => .null
  | some n => .num n

/-- serde serialization of `Option<f64>`: `None` becomes JSON `null`. -/
def optRatJson : Option ℚ → Json
  | none => .null
  | some q => .num q

/-! ## Request bodies (src/request.rs), with their derived serde
serialization: every field is emitted, in declaration order. -/

/-- Request body for the text-to-image endpoint. -/
structure TextToImageRequest where
  prompt : String
  model : String
  negative_prompt : Option String
  width : Nat
  height : Nat
  steps : Nat
  output_format : String
  seed : Option Nat

/-- `#[derive(Serialize)]` for `TextToImageRequest`. -/
def TextToImageRequest.toJson (r : TextToImageRequest) : Json :=
  .obj [("prompt", .str r.prompt), ("model", .str r.model),
        ("negative_prompt", optStrJson r.negative_prompt),
        ("width", .num r.width), ("height", .num r.height),
        ("steps", .num r.steps), ("output_format", .str r.output_format),
        ("seed", optNatJson r.seed)]

/-- Request body for the image-to-image endpoint. -/
structure ImageToImageRequest where
  model : String
  prompt : String
  negative_prompt : Option String
  image : String
  strength : Option ℚ
  steps : Nat
  output_format : String
  seed : Option Nat

/-- `#[derive(Serialize)]` for `ImageToImageRequest`. -/
def ImageToImageRequest.toJson (r : ImageToImageRequest) : Json :=
  .obj [("model", .str r.model), ("prompt", .str r.prompt),
        ("negative_prompt", optStrJson r.negative_prompt),
        ("image", .str r.image), ("strength", optRatJson r.strength),
        ("steps", .num r.steps), ("output_format", .str r.output_format),
        ("seed", optNatJson r.seed)]

/-- Request body for the ControlNet endpoint. -/
structure ControlNetRequest where
  controlnet : String
  model : String
  prompt : String
  negative_prompt : Option String
  image : String
  strength : ℚ
  width : Nat
  height : Nat
  steps : Nat
  guidance : ℚ
  seed : Nat
  scheduler : String
  output_format : String

/-- `#[derive(Serialize)]` for `ControlNetRequest`. -/
def ControlNetRequest.toJson (r : ControlNetRequest) : Json :=
  .obj [("controlnet", .str r.controlnet), ("model", .str r.model),
        ("prompt", .str r.prompt),
        ("negative_prompt", optStrJson r.negative_prompt),
        ("image", .str r.image), ("strength", .num r.strength),
        ("width", .num r.width), ("height", .num r.height),
        ("steps", .num r.steps), ("guidance", .num r.guidance),
        ("seed", .num r.seed), ("scheduler", .str r.scheduler),
        ("output_format", .str r.output_format)]

/-- Request body for the inpaint (repaint) endpoint. -/
structure RepaintImageRequest where
  model : String
  prompt : String
  negative_prompt : Option String
  image : String
  mask_image : String
  strength : Option ℚ
  width : Nat
  height : Nat
  steps : Nat
  guidance : ℚ
  seed : Nat
  scheduler : String
  output_format : String

/-- `#[derive(Serialize)]` for `RepaintImageRequest`. -/
def RepaintImageRequest.toJson (r : RepaintImageRequest) : Json :=
  .obj [("model", .str r.model), ("prompt", .str r.prompt),
        ("negative_prompt", optStrJson r.negative_prompt),
        ("image", .str r.image), ("mask_image", .str r.mask_image),
        ("strength", optRatJson r.strength),
        ("width", .num r.width), ("height", .num r.height),
        ("steps", .num r.steps), ("guidance", .num r.guidance),
        ("seed", .num r.seed), ("scheduler", .str r.scheduler),
        ("output_format", .str r.output_format)]

/-- Request body for the instruct (edit) endpoint. -/
structure EditImageRequest where
  model : String
  prompt : String
  negative_prompt : Option String
  image : String
  image_guidance : ℚ
  steps : Nat
  guidance : ℚ
  seed : Nat
  scheduler : String
  output_format : String

/-- `#[derive(Serialize)]` for `EditImageRequest`. -/
def EditImageRequest.toJson (r : EditImageRequest) : Json :=
  .obj [("model", .str r.model), ("prompt", .str r.prompt),
        ("negative_prompt", optStrJson r.negative_prompt),
        ("image", .str r.image), ("image_guidance", .num r.image_guidance),
        ("steps", .num r.steps), ("guidance", .num r.guidance),
        ("seed", .num r.seed), ("scheduler", .str r.scheduler),
        ("output_format", .str r.output_format)]

/-! ## Response body (src/response.rs) and its derived deserialization -/

/-- Response body shared by all generation endpoints. -/
structure ToImageResponse where
  image : String
  seed : Option Nat
  cost : Option ℚ
deriving Repr, DecidableEq

/-- Derived deserialization of an optional `usize` field: absent or `null`
yields `none`; a non-negative integral number yields `some`; anything else
is a type error. -/
def natFieldOpt (fields : List (String × Json)) (k : String) :
    Except String (Option Nat) :=
  match jsonLookup fields k with
  | none => .ok none
  | some .null => .ok none
  | some (.num q) =>
      if q.den = 1 ∧ 0 ≤ q.num then .ok (some q.num.toNat)
      else .error ("invalid value for field " ++ k)
  | some _ => .error ("invalid type for field " ++ k)

/-- Derived deserialization of an optional `f64` field: absent or `null`
yields `none`; a number yields `some`; anything else is a type error. -/
def ratFieldOpt (fields : List (String × Json)) (k : String) :
    Except String (Option ℚ) :=
  match jsonLookup fields k with
  | none => .ok none
  | some .null => .ok none
  | some (.num q) => .ok (some q)
  | some _ => .error ("invalid type for field " ++ k)

/-- `#[derive(Deserialize)]` for `ToImageResponse`: `image` is required,
`seed` and `cost` default to `none` when absent, unknown fields are
ignored. -/
def deserializeToImageResponse : Json → Except String ToImageResponse
  | .obj fields =>
    match jsonLookup fields "image" with
    | some (.str s) =>
      match natFieldOpt fields "seed" with
      | .ok seed =>
        match ratFieldOpt fields "cost" with
        | .ok cost => .ok ⟨s, seed, cost⟩
        | .error e => .error e
      | .error e => .error e
    | some _ => .error "invalid type for field image"
    | none => .error "missing field image"
  | _ => .error "expected an object"

/-! ## Client and dispatch (src/client.rs) -/

/-- `BASE_URL` constant of src/client.rs. -/
def BASE_URL : String := "https://api.getimg.ai/v1"

/-- The GetImg API client: API key, model and base URL. (The embedded
reqwest connection handle carries no observable state and is dropped.) -/
structure Client where
  api_key : String
  model : String
  api_url : String

/-- `Client::new`. -/
def Client.new (api_key : String) (model : String) : Client :=
  { api_key := api_key, model := model, api_url := BASE_URL }

/-- An outbound HTTP request as assembled by a client method. -/
structure HttpRequest where
  method : String
  url : String
  headers : List (String × String)
  body : Json

/-- An inbound HTTP response: status code and (already JSON-parsed) body. -/
structure HttpResponse where
  status : Nat
  body : Json

/-- Errors a client method can resolve to: a transport failure from
`send()`, or a body-decoding failure from `Response::json`. -/
inductive ClientError where
  | transport (e : String)
  | decode (e : String)
deriving Repr, DecidableEq

/-- A transport: answers one HTTP request with a response or a transport
failure. -/
def Transport : Type := HttpRequest → Except String HttpResponse

/-- The shared request/response exchange of every client method: send the
assembled request once, then decode the body as `ToImageResponse`
regardless of the response status (`response.json::<ToImageResponse>()`).
The second component logs every request handed to the transport. -/
def dispatch (req : HttpRequest) (transport : Transport) :
    Except ClientError ToImageResponse × List HttpRequest :=
  match transport req with
  | .error e => (.error (.transport e), [req])
  | .ok resp =>
    match deserializeToImageResponse resp.body with
    | .error e => (.error (.decode e), [req])
    | .ok r => (.ok r, [req])

/-- The headers attached by every client method. -/
def requestHeaders (c : Client) : List (String × String) :=
  [("Accept", "application/json"),
   ("Authorization", "Bearer " ++ c.api_key),
   ("Content-Type", "application/json")]

/-- The request body built by `generate_image_from_text`. -/
def generate_image_from_text_request (c : Client) (prompt : String)
    (width height steps : Nat) (output_format : String)
    (negative_prompt : Option String) (seed : Option Nat) :
    TextToImageRequest :=
  { prompt := prompt, model := c.model, negative_prompt := negative_prompt,
    width := width, height := height, steps := steps,
    output_format := output_format, seed := seed }

/-- The HTTP request issued by `generate_image_from_text`. -/
def generate_image_from_text_http (c : Client) (prompt : String)
    (width height steps : Nat) (output_format : String)
    (negative_prompt : Option String) (seed : Option Nat) : HttpRequest :=
  { method := "POST",
    url := c.api_url ++ "/latent-consistency/text-to-image",
    headers := requestHeaders c,
    body := (generate_image_from_text_request c prompt width height steps
      output_format negative_prompt seed).toJson }

/-- `Client::generate_image_from_text`. -/
def generate_image_from_text (c : Client) (prompt : String)
    (width height steps : Nat) (output_format : String)
    (negative_prompt : Option String) (seed : Option Nat)
    (transport : Transport) :
    Except ClientError ToImageResponse × List HttpRequest :=
  dispatch (generate_image_from_text_http c prompt width height steps
    output_format negative_prompt seed) transport

/-- The request body built by `generate_image_from_image`. -/
def generate_image_from_image_request (c : Client) (prompt : String)
    (image_data : String) (steps seed : Nat) (output_format : String)
    (negative_prompt : Option String) (strength : Option ℚ) :
    ImageToImageRequest :=
  { model := c.model, prompt := prompt, negative_prompt := negative_prompt,
    image := image_data, strength := strength, steps := steps,
    output_format := output_format, seed := some seed }

/-- The HTTP request issued by `generate_image_from_image`. -/
def generate_image_from_image_http (c : Client) (prompt : String)
    (image_data : String) (steps seed : Nat) (output_format : String)
    (negative_prompt : Option String) (strength : Option ℚ) : HttpRequest :=
  { method := "POST",
    url := c.api_url ++ "/latent-consistency/image-to-image",
    headers := requestHeaders c,
    body := (generate_image_from_image_request c prompt image_data steps seed
      output_format negative_prompt strength).toJson }

/-- `Client::generate_image_from_image`. -/
def generate_image_from_image (c : Client) (prompt : String)
    (image_data : String) (steps seed : Nat) (output_format : String)
    (negative_prompt : Option String) (strength : Option ℚ)
    (transport : Transport) :
    Except ClientError ToImageResponse × List HttpRequest :=
  dispatch (generate_image_from_image_http c prompt image_data steps seed
    output_format negative_prompt strength) transport

/-- The request body built by `generate_image_using_controlnet`. -/
def generate_image_using_controlnet_request (_c : Client)
    (controlnet prompt negative_prompt image : String) (strength : ℚ)
    (width height steps : Nat) (guidance : ℚ) (seed : Nat)
    (scheduler output_format : String) : ControlNetRequest :=
  { controlnet := controlnet, model := "stable-diffusion-v1-5",
    prompt := prompt, negative_prompt := some negative_prompt,
    image := image, strength := strength, width := width, height := height,
    steps := steps, guidance := guidance, seed := seed,
    scheduler := scheduler, output_format := output_format }

/-- The HTTP request issued by `generate_image_using_controlnet`. -/
def generate_image_using_controlnet_http (c : Client)
    (controlnet prompt negative_prompt image : String) (strength : ℚ)
    (width height steps : Nat) (guidance : ℚ) (seed : Nat)
    (scheduler output_format : String) : HttpRequest :=
  { method := "POST",
    url := c.api_url ++ "/stable-diffusion/controlnet",
    headers := requestHeaders c,
    body := (generate_image_using_controlnet_request c controlnet prompt
      negative_prompt image strength width height steps guidance seed
      scheduler output_format).toJson }

/-- `Client::generate_image_using_controlnet`. -/
def generate_image_using_controlnet (c : Client)
    (controlnet prompt negative_prompt image : String) (strength : ℚ)
    (width height steps : Nat) (guidance : ℚ) (seed : Nat)
    (scheduler output_format : String) (transport : Transport) :
    Except ClientError ToImageResponse × List HttpRequest :=
  dispatch (generate_image_using_controlnet_http c controlnet prompt
    negative_prompt image strength width height steps guidance seed
    scheduler output_format) transport

/-- The request body built by `generate_repainted_image`. -/
def generate_repainted_image_request (_c : Client) (prompt : String)
    (negative_prompt : Option String) (image_data mask_image_data : String)
    (strength : Option ℚ) (width height steps : Nat) (guidance : ℚ)
    (seed : Nat) (scheduler output_format : String) : RepaintImageRequest :=
  { model := "stable-diffusion-v1-5-inpainting", prompt := prompt,
    negative_prompt := negative_prompt, image := image_data,
    mask_image := mask_image_data, strength := strength, width := width,
    height := height, steps := steps, guidance := guidance, seed := seed,
    scheduler := scheduler, output_format := output_format }

/-- The HTTP request issued by `generate_repainted_image`. -/
def generate_repainted_image_http (c : Client) (prompt : String)
    (negative_prompt : Option String) (image_data mask_image_data : String)
    (strength : Option ℚ) (width height steps : Nat) (guidance : ℚ)
    (seed : Nat) (scheduler output_format : String) : HttpRequest :=
  { method := "POST",
    url := c.api_url ++ "/stable-diffusion/inpaint",
    headers := requestHeaders c,
    body := (generate_repainted_image_request c prompt negative_prompt
      image_data mask_image_data strength width height steps guidance seed
      scheduler output_format).toJson }

/-- `Client::generate_repainted_image`. -/
def generate_repainted_image (c : Client) (prompt : String)
    (negative_prompt : Option String) (image_data mask_image_data : String)
    (strength : Option ℚ) (width height steps : Nat) (guidance : ℚ)
    (seed : Nat) (scheduler output_format : String)
    (transport : Transport) :
    Except ClientError ToImageResponse × List HttpRequest :=
  dispatch (generate_repainted_image_http c prompt negative_prompt
    image_data mask_image_data strength width height steps guidance seed
    scheduler output_format) transport

/-- The request body built by `generate_edited_image`. -/
def generate_edited_image_request (_c : Client) (prompt : String)
    (negative_prompt : Option String) (image_data : String)
    (image_guidance : ℚ) (steps : Nat) (guidance : ℚ) (seed : Nat)
    (scheduler output_format : String) : EditImageRequest :=
  { model := "instruct-pix2pix", prompt := prompt,
    negative_prompt := negative_prompt, image := image_data,
    image_guidance := image_guidance, steps := steps, guidance := guidance,
    seed := seed, scheduler := scheduler, output_format := output_format }

/-- The HTTP request issued by `generate_edited_image`. -/
def generate_edited_image_http (c : Client) (prompt : String)
    (negative_prompt : Option String) (image_data : String)
    (image_guidance : ℚ) (steps : Nat) (guidance : ℚ) (seed : Nat)
    (scheduler output_format : String) : HttpRequest :=
  { method := "POST",
    url := c.api_url ++ "/stable-diffusion/instruct",
    headers := requestHeaders c,
    body := (generate_edited_image_request c prompt negative_prompt
      image_data image_guidance steps guidance seed scheduler
      output_format).toJson }

/-- `Client::generate_edited_image`. -/
def generate_edited_image (c : Client) (prompt : String)
    (negative_prompt : Option String) (image_data : String)
    (image_guidance : ℚ) (steps : Nat) (guidance : ℚ) (seed : Nat)
    (scheduler output_format : String) (transport : Transport) :
    Except ClientError ToImageResponse × List HttpRequest :=
  dispatch (generate_edited_image_http c prompt negative_prompt image_data
    image_guidance steps guidance seed scheduler output_format) transport

/-- The `Debug` formatting of `Client` (src/client.rs `impl fmt::Debug`):
only the `model` field is printed. -/
def clientDebugFmt (c : Client) : String :=
  "Client \x7b model: " ++ c.model.quote ++ " \x7d"

/-- The TextToImage field set as the specification's §3 lists it
(spec-side definition, for comparison against the serialized key set). -/
def specTextToImageKeys : List String :=
  ["prompt", "negative_prompt", "width", "height", "steps",
   "output_format", "seed"]

/-! ## Theorems -/

namespace Base64

theorem b64Index_b64Char {n : Nat} (h : n < 64) : b64Index (b64Char n) = some n := by
  revert h; revert n; decide

theorem b64Char_ne_pad {n : Nat} (h : n < 64) : b64Char n ≠ '=' := by
  revert h; revert n; decide

theorem decodeBytes_encodeBytes :
    ∀ bs : List Nat, (∀ b ∈ bs, b < 256) → decodeBytes (encodeBytes bs) = .ok bs
  | [], _ => rfl
  | [b1], h => by
    have hb1 : b1 < 256 := h b1 (by simp)
    have h1 : b1 / 4 < 64 := by omega
    have h2 : b1 % 4 * 16 < 64 := by omega
    simp only [encodeBytes, decodeBytes, b64Index_b64Char h1, b64Index_b64Char h2]
    simp only [List.isEmpty_nil, if_true, Nat.mul_mod_left, reduceIte]
    have : b1 / 4 * 4 + b1 % 4 * 16 / 16 = b1 := by omega
    rw [this]
  | [b1, b2], h => by
    have hb1 : b1 < 256 := h b1 (by simp)
    have hb2 : b2 < 256 := h b2 (by simp)
    have h1 : b1 / 4 < 64 := by omega
    have h2 : b1 % 4 * 16 + b2 / 16 < 64 := by omega
    have h3 : b2 % 16 * 4 < 64 := by omega
    simp only [encodeBytes, decodeBytes, b64Index_b64Char h1, b64Index_b64Char h2,
      b64Index_b64Char h3]
    rw [if_neg (b64Char_ne_pad h3)]
    simp only [List.isEmpty_nil, if_true, Nat.mul_mod_left, reduceIte]
    have e1 : b1 / 4 * 4 + (b1 % 4 * 16 + b2 / 16) / 16 = b1 := by omega
    have e2 : (b1 % 4 * 16 + b2 / 16) % 16 * 16 + b2 % 16 * 4 / 4 = b2 := by omega
    rw [e1, e2]
  | b1 :: b2 :: b3 :: b4 :: rest, h => by
    have hb1 : b1 < 256 := h b1 (by simp)
    have hb2 : b2 < 256 := h b2 (by simp)
    have hb3 : b3 < 256 := h b3 (by simp)
    have h1 : b1 / 4 < 64 := by omega
    have h2 : b1 % 4 * 16 + b2 / 16 < 64 := by omega
    have h3 : b2 % 16 * 4 + b3 / 64 < 64 := by omega
    have h4 : b3 % 64 < 64 := by omega
    have ih := decodeBytes_encodeBytes (b4 :: rest)
      (fun b hb => h b (by simp at hb ⊢; tauto))
    simp only [encodeBytes, decodeBytes, b64Index_b64Char h1, b64Index_b64Char h2,
      b64Index_b64Char h3, b64Index_b64Char h4]
    rw [if_neg (b64Char_ne_pad h3), if_neg (b64Char_ne_pad h4)]
    rw [ih]
    have e1 : b1 / 4 * 4 + (b1 % 4 * 16 + b2 / 16) / 16 = b1 := by omega
    have e2 : (b1 % 4 * 16 + b2 / 16) % 16 * 16 + (b2 % 16 * 4 + b3 / 64) / 4 = b2 := by
      omega
    have e3 : (b2 % 16 * 4 + b3 / 64) % 4 * 64 + b3 % 64 = b3 := by omega
    rw [e1, e2, e3]
  | [b1, b2, b3], h => by
    have hb1 : b1 < 256 := h b1 (by simp)
    have hb2 : b2 < 256 := h b2 (by simp)
    have hb3 : b3 < 256 := h b3 (by simp)
    have h1 : b1 / 4 < 64 := by omega
    have h2 : b1 % 4 * 16 + b2 / 16 < 64 := by omega
    have h3 : b2 % 16 * 4 + b3 / 64 < 64 := by omega
    have h4 : b3 % 64 < 64 := by omega
    simp only [encodeBytes, decodeBytes, b64Index_b64Char h1, b64Index_b64Char h2,
      b64Index_b64Char h3, b64Index_b64Char h4]
    rw [if_neg (b64Char_ne_pad h3), if_neg (b64Char_ne_pad h4)]
    have e1 : b1 / 4 * 4 + (b1 % 4 * 16 + b2 / 16) / 16 = b1 := by omega
    have e2 : (b1 % 4 * 16 + b2 / 16) % 16 * 16 + (b2 % 16 * 4 + b3 / 64) / 4 = b2 := by
      omega
    have e3 : (b2 % 16 * 4 + b3 / 64) % 4 * 64 + b3 % 64 = b3 := by omega
    rw [e1, e2, e3]

theorem decodeBytes_ok_valid :
    ∀ (l : List Char) (bs : List Nat), decodeBytes l = .ok bs →
      (∀ c ∈ l, (b64Index c).isSome = true ∨ c = '=') ∧ l.length % 4 = 0
  | [], _, _ => ⟨by simp, rfl⟩
  | [c1], _, h => by simp [decodeBytes] at h
  | [c1, c2], _, h => by simp [decodeBytes] at h
  | [c1, c2, c3], _, h => by simp [decodeBytes] at h
  | c1 :: c2 :: c3 :: c4 :: rest, bs, h => by
    have ih := decodeBytes_ok_valid rest
    simp only [decodeBytes] at h
    split at h
    case _ s1 s2 hc1 hc2 =>
      by_cases hc3 : c3 = '='
      · rw [if_pos hc3] at h
        by_cases hc4 : c4 = '='
        · rw [if_pos hc4] at h
          by_cases hr : rest.isEmpty
          · have hre : rest = [] := List.isEmpty_iff.mp hr
            subst hre
            refine ⟨?_, by simp⟩
            intro c hc
            simp only [List.mem_cons, List.not_mem_nil, or_false] at hc
            rcases hc with rfl | rfl | rfl | rfl
            · left; simp [hc1]
            · left; simp [hc2]
            · right; exact hc3
            · right; exact hc4
          · rw [if_neg hr] at h; simp at h
        · rw [if_neg hc4] at h; simp at h
      · rw [if_neg hc3] at h
        split at h
        case _ s3 hc3i =>
          by_cases hc4 : c4 = '='
          · rw [if_pos hc4] at h
            by_cases hr : rest.isEmpty
            · have hre : rest = [] := List.isEmpty_iff.mp hr
              subst hre
              refine ⟨?_, by simp⟩
              intro c hc
              simp only [List.mem_cons, List.not_mem_nil, or_false] at hc
              rcases hc with rfl | rfl | rfl | rfl
              · left; simp [hc1]
              · left; simp [hc2]
              · left; simp [hc3i]
              · right; exact hc4
            · rw [if_neg hr] at h; simp at h
          · rw [if_neg hc4] at h
            split at h
            case _ s4 hc4i =>
              split at h
              case _ bs2 hrest =>
                obtain ⟨ihv, ihl⟩ := ih bs2 hrest
                refine ⟨?_, ?_⟩
                · intro c hc
                  simp only [List.mem_cons] at hc
                  rcases hc with rfl | rfl | rfl | rfl | hc
                  · left; simp [hc1]
                  · left; simp [hc2]
                  · left; simp [hc3i]
                  · left; simp [hc4i]
                  · exact ihv c hc
                · simp only [List.length_cons]
                  omega
              case _ e hrest => simp at h
            case _ hc4i => simp at h
        case _ hc3i => simp at h
    case _ x1 x2 hne => simp at h

end Base64

/-- Every client method hands its assembled request to the transport
exactly once and logs exactly that request. -/
theorem dispatch_log (req : HttpRequest) (t : Transport) :
    (dispatch req t).2 = [req] := by
  unfold dispatch
  rcases h : t req with e | resp
  · rfl
  · rcases h2 : deserializeToImageResponse resp.body with e2 | r <;> simp [h2]

/-- C1 counterexample: `generate_image_from_text` with `negative_prompt`
and `seed` left absent serializes both keys, each with an explicit JSON
`null` value — the keys are not omitted. -/
theorem textToImage_absent_optional_not_omitted :
    jsonLookup (jsonObjFields (generate_image_from_text_request
        (Client.new "k" "m") "p" 512 512 4 "jpeg" none none).toJson)
      "negative_prompt" = some Json.null ∧
    jsonLookup (jsonObjFields (generate_image_from_text_request
        (Client.new "k" "m") "p" 512 512 4 "jpeg" none none).toJson)
      "seed" = some Json.null :=
  ⟨rfl, rfl⟩

/-- C1 amended: every optional parameter the caller leaves absent is
serialized as an explicit JSON `null` — its key is present with value
`null` — for every operation that accepts optional parameters. -/
theorem absent_optionals_serialized_as_null (c : Client)
    (prompt image mask fmt sch : String) (w h st sd : Nat) (g ig : ℚ) :
    jsonLookup (jsonObjFields (generate_image_from_text_request c prompt
        w h st fmt none none).toJson) "negative_prompt" = some Json.null ∧
    jsonLookup (jsonObjFields (generate_image_from_text_request c prompt
        w h st fmt none none).toJson) "seed" = some Json.null ∧
    jsonLookup (jsonObjFields (generate_image_from_image_request c prompt
        image st sd fmt none none).toJson) "negative_prompt" = some Json.null ∧
    jsonLookup (jsonObjFields (generate_image_from_image_request c prompt
        image st sd fmt none none).toJson) "strength" = some Json.null ∧
    jsonLookup (jsonObjFields (generate_repainted_image_request c prompt
        none image mask none w h st g sd sch fmt).toJson)
      "negative_prompt" = some Json.null ∧
    jsonLookup (jsonObjFields (generate_repainted_image_request c prompt
        none image mask none w h st g sd sch fmt).toJson)
      "strength" = some Json.null ∧
    jsonLookup (jsonObjFields (generate_edited_image_request c prompt
        none image ig st g sd sch fmt).toJson)
      "negative_prompt" = some Json.null :=
  ⟨rfl, rfl, rfl, rfl, rfl, rfl, rfl⟩

/-- C2 counterexample: on an HTTP 401 with an error body,
`generate_image_from_text` resolves to a body-decoding error, and its
result is identical to the result under HTTP 200 with the same body — the
response status is not propagated at all, so no error containing the
status verbatim is produced. -/
theorem error_status_not_translated :
    (generate_image_from_text (Client.new "key" "model") "p" 512 512 4
        "jpeg" none none
        (fun _ => .ok ⟨401, Json.obj [("error", Json.str "Unauthorized")]⟩)).1
      = Except.error (ClientError.decode "missing field image") ∧
    (generate_image_from_text (Client.new "key" "model") "p" 512 512 4
        "jpeg" none none
        (fun _ => .ok ⟨401, Json.obj [("error", Json.str "Unauthorized")]⟩)).1
      = (generate_image_from_text (Client.new "key" "model") "p" 512 512 4
        "jpeg" none none
        (fun _ => .ok ⟨200, Json.obj [("error", Json.str "Unauthorized")]⟩)).1 :=
  ⟨rfl, rfl⟩

/-- C2 amended: every client method ignores the HTTP response status
entirely — its result depends only on the response body — and on an error
body lacking the `image` field it resolves to a body-decoding error, not
to an error carrying the status. -/
theorem response_status_ignored (c : Client)
    (controlnet prompt nprompt image mask sch fmt : String)
    (w h st sd : Nat) (g ig strength : ℚ) (np : Option String)
    (osd : Option Nat) (ostr : Option ℚ) (body : Json) (s1 s2 : Nat)
    (msg : String) :
    (generate_image_from_text c prompt w h st fmt np osd
        (fun _ => .ok ⟨s1, body⟩)).1
      = (generate_image_from_text c prompt w h st fmt np osd
        (fun _ => .ok ⟨s2, body⟩)).1 ∧
    (generate_image_from_image c prompt image st sd fmt np ostr
        (fun _ => .ok ⟨s1, body⟩)).1
      = (generate_image_from_image c prompt image st sd fmt np ostr
        (fun _ => .ok ⟨s2, body⟩)).1 ∧
    (generate_image_using_controlnet c controlnet prompt nprompt image
        strength w h st g sd sch fmt (fun _ => .ok ⟨s1, body⟩)).1
      = (generate_image_using_controlnet c controlnet prompt nprompt image
        strength w h st g sd sch fmt (fun _ => .ok ⟨s2, body⟩)).1 ∧
    (generate_repainted_image c prompt np image mask ostr w h st g sd sch
        fmt (fun _ => .ok ⟨s1, body⟩)).1
      = (generate_repainted_image c prompt np image mask ostr w h st g sd
        sch fmt (fun _ => .ok ⟨s2, body⟩)).1 ∧
    (generate_edited_image c prompt np image ig st g sd sch fmt
        (fun _ => .ok ⟨s1, body⟩)).1
      = (generate_edited_image c prompt np image ig st g sd sch fmt
        (fun _ => .ok ⟨s2, body⟩)).1 ∧
    (generate_image_from_text c prompt w h st fmt np osd
        (fun _ => .ok ⟨401, Json.obj [("error", Json.str msg)]⟩)).1
      = Except.error (ClientError.decode "missing field image") :=
  ⟨rfl, rfl, rfl, rfl, rfl, rfl⟩

/-- C3 counterexample: the serialized TextToImage payload contains the key
`model`, which is not in the §3 TextToImage field set
{prompt, negative_prompt, width, height, steps, output_format, seed} — so
the serialized field set does not exactly match the §3 variant. -/
theorem textToImage_payload_key_mismatch :
    "model" ∈ jsonKeys (generate_image_from_text_request
        (Client.new "k" "m") "p" 512 512 4 "jpeg" none none).toJson ∧
    "model" ∉ specTextToImageKeys := by
  constructor
  · simp [generate_image_from_text_request, TextToImageRequest.toJson,
      jsonKeys]
  · decide

/-- C3 amended: the TextToImage payload's keys are exactly
{prompt, model, negative_prompt, width, height, steps, output_format,
seed}, every key always present (absent optionals serialized as `null`),
and the ImageToImage payload always carries `seed` with the caller's
value, since the method takes `seed` as a required argument. -/
theorem payload_key_sets (c : Client) (prompt image fmt : String)
    (w h st sd : Nat) (np : Option String) (osd : Option Nat)
    (ostr : Option ℚ) :
    jsonKeys (generate_image_from_text_request c prompt w h st fmt np
        osd).toJson
      = ["prompt", "model", "negative_prompt", "width", "height", "steps",
         "output_format", "seed"] ∧
    jsonKeys (generate_image_from_image_request c prompt image st sd fmt
        np ostr).toJson
      = ["model", "prompt", "negative_prompt", "image", "strength",
         "steps", "output_format", "seed"] ∧
    jsonLookup (jsonObjFields (generate_image_from_image_request c prompt
        image st sd fmt np ostr).toJson) "seed" = some (Json.num sd) :=
  ⟨rfl, rfl, rfl⟩

/-- C4: the ControlNet request's model is `stable-diffusion-v1-5`, the
Repaint request's model is `stable-diffusion-v1-5-inpainting`, the Edit
request's model is `instruct-pix2pix`, and the TextToImage and
ImageToImage requests carry the client's stored model unchanged. -/
theorem fixed_model_identifiers (c : Client)
    (controlnet prompt nprompt image mask sch fmt : String)
    (w h st sd : Nat) (g ig strength : ℚ) (np : Option String)
    (osd : Option Nat) (ostr : Option ℚ) :
    (generate_image_using_controlnet_request c controlnet prompt nprompt
        image strength w h st g sd sch fmt).model
      = "stable-diffusion-v1-5" ∧
    (generate_repainted_image_request c prompt np image mask ostr w h st g
        sd sch fmt).model = "stable-diffusion-v1-5-inpainting" ∧
    (generate_edited_image_request c prompt np image ig st g sd sch
        fmt).model = "instruct-pix2pix" ∧
    (generate_image_from_text_request c prompt w h st fmt np osd).model
      = c.model ∧
    (generate_image_from_image_request c prompt image st sd fmt np
        ostr).model = c.model :=
  ⟨rfl, rfl, rfl, rfl, rfl⟩

/-- C5: decoding the base64 text produced by encoding any byte sequence —
the empty sequence included — yields the original bytes. -/
theorem base64_decode_encode_roundtrip (bs : List Nat)
    (h : ∀ b ∈ bs, b < 256) :
    Base64.decode (Base64.encode bs) = .ok bs :=
  Base64.decodeBytes_encodeBytes bs h

/-- C5 witness: the round trip at the concrete bytes `[65, 255, 0]`. -/
theorem base64_decode_encode_roundtrip_witness :
    (∀ b ∈ [65, 255, 0], b < 256) ∧
    Base64.decode (Base64.encode [65, 255, 0]) = .ok [65, 255, 0] :=
  ⟨by decide, base64_decode_encode_roundtrip [65, 255, 0] (by decide)⟩

/-- C6: on any input that is not valid base64 — a character outside the
alphabet and padding, or a length that is not a multiple of four — decode
fails with a `DecodeError`; being a total function it is deterministic and
returns no partial byte sequence. -/
theorem base64_decode_rejects_invalid (s : String)
    (h : (∃ c ∈ s.data, Base64.b64Index c = none ∧ c ≠ '=') ∨
      s.length % 4 ≠ 0) :
    ∃ e, Base64.decode s = .error e := by
  rcases he : Base64.decode s with e | bs
  · exact ⟨e, rfl⟩
  · exfalso
    obtain ⟨hv, hl⟩ := Base64.decodeBytes_ok_valid s.data bs he
    rcases h with ⟨c, hc, hnone, hne⟩ | hlen
    · rcases hv c hc with hs | rfl
      · rw [hnone] at hs; simp at hs
      · exact hne rfl
    · exact hlen hl

/-- C6 witness: decoding the single character `!` fails. -/
theorem base64_decode_rejects_invalid_witness :
    ((∃ c ∈ ("!" : String).data, Base64.b64Index c = none ∧ c ≠ '=') ∨
      ("!" : String).length % 4 ≠ 0) ∧
    ∃ e, Base64.decode "!" = .error e :=
  ⟨by decide, base64_decode_rejects_invalid "!" (by decide)⟩

/-- C7: the body `{"image":"QQ==","seed":512,"cost":0.002}` deserializes
to a response whose image decodes to the single byte 0x41, whose seed is
512 and whose cost is 0.002; `seed` and `cost` may be absent, yielding
`none`; an unknown extra field is ignored rather than rejected. -/
theorem toImageResponse_deserialization :
    deserializeToImageResponse (Json.obj [("image", Json.str "QQ=="),
        ("seed", Json.num 512), ("cost", Json.num 0.002)])
      = .ok ⟨"QQ==", some 512, some 0.002⟩ ∧
    Base64.decode "QQ==" = .ok [0x41] ∧
    deserializeToImageResponse (Json.obj [("image", Json.str "QQ==")])
      = .ok ⟨"QQ==", none, none⟩ ∧
    deserializeToImageResponse (Json.obj [("image", Json.str "QQ=="),
        ("seed", Json.num 512), ("cost", Json.num 0.002),
        ("unexpected", Json.str "x")])
      = .ok ⟨"QQ==", some 512, some 0.002⟩ :=
  ⟨rfl, rfl, rfl, rfl⟩

/-- C8: every client method issues a POST to its fixed per-operation path
under the shared base URL and attaches the `Accept`,
`Authorization: Bearer <api_key>` and `Content-Type` headers built from
the stored credentials. -/
theorem dispatcher_post_paths_and_headers (c : Client)
    (key mdl controlnet prompt nprompt image mask sch fmt : String)
    (w h st sd : Nat) (g ig strength : ℚ) (np : Option String)
    (osd : Option Nat) (ostr : Option ℚ) :
    (Client.new key mdl).api_url = "https://api.getimg.ai/v1" ∧
    requestHeaders c = [("Accept", "application/json"),
      ("Authorization", "Bearer " ++ c.api_key),
      ("Content-Type", "application/json")] ∧
    ((generate_image_from_text_http c prompt w h st fmt np osd).method
        = "POST" ∧
      (generate_image_from_text_http c prompt w h st fmt np osd).url
        = c.api_url ++ "/latent-consistency/text-to-image" ∧
      (generate_image_from_text_http c prompt w h st fmt np osd).headers
        = requestHeaders c) ∧
    ((generate_image_from_image_http c prompt image st sd fmt np
          ostr).method = "POST" ∧
      (generate_image_from_image_http c prompt image st sd fmt np
          ostr).url = c.api_url ++ "/latent-consistency/image-to-image" ∧
      (generate_image_from_image_http c prompt image st sd fmt np
          ostr).headers = requestHeaders c) ∧
    ((generate_image_using_controlnet_http c controlnet prompt nprompt
          image strength w h st g sd sch fmt).method = "POST" ∧
      (generate_image_using_controlnet_http c controlnet prompt nprompt
          image strength w h st g sd sch fmt).url
        = c.api_url ++ "/stable-diffusion/controlnet" ∧
      (generate_image_using_controlnet_http c controlnet prompt nprompt
          image strength w h st g sd sch fmt).headers = requestHeaders c) ∧
    ((generate_repainted_image_http c prompt np image mask ostr w h st g
          sd sch fmt).method = "POST" ∧
      (generate_repainted_image_http c prompt np image mask ostr w h st g
          sd sch fmt).url = c.api_url ++ "/stable-diffusion/inpaint" ∧
      (generate_repainted_image_http c prompt np image mask ostr w h st g
          sd sch fmt).headers = requestHeaders c) ∧
    ((generate_edited_image_http c prompt np image ig st g sd sch
          fmt).method = "POST" ∧
      (generate_edited_image_http c prompt np image ig st g sd sch
          fmt).url = c.api_url ++ "/stable-diffusion/instruct" ∧
      (generate_edited_image_http c prompt np image ig st g sd sch
          fmt).headers = requestHeaders c) :=
  ⟨rfl, rfl, ⟨rfl, rfl, rfl⟩, ⟨rfl, rfl, rfl⟩, ⟨rfl, rfl, rfl⟩,
    ⟨rfl, rfl, rfl⟩, ⟨rfl, rfl, rfl⟩⟩

/-- C9: every client method hands exactly one request to the transport —
the one it assembled — whatever the transport answers: no retry on
transport failure and none on an undecodable response; being a function,
each call resolves to exactly one result. -/
theorem single_request_per_call (c : Client)
    (controlnet prompt nprompt image mask sch fmt : String)
    (w h st sd : Nat) (g ig strength : ℚ) (np : Option String)
    (osd : Option Nat) (ostr : Option ℚ) (t : Transport) :
    (generate_image_from_text c prompt w h st fmt np osd t).2
      = [generate_image_from_text_http c prompt w h st fmt np osd] ∧
    (generate_image_from_image c prompt image st sd fmt np ostr t).2
      = [generate_image_from_image_http c prompt image st sd fmt np
         ostr] ∧
    (generate_image_using_controlnet c controlnet prompt nprompt image
        strength w h st g sd sch fmt t).2
      = [generate_image_using_controlnet_http c controlnet prompt nprompt
         image strength w h st g sd sch fmt] ∧
    (generate_repainted_image c prompt np image mask ostr w h st g sd sch
        fmt t).2
      = [generate_repainted_image_http c prompt np image mask ostr w h st
         g sd sch fmt] ∧
    (generate_edited_image c prompt np image ig st g sd sch fmt t).2
      = [generate_edited_image_http c prompt np image ig st g sd sch
         fmt] :=
  ⟨dispatch_log _ t, dispatch_log _ t, dispatch_log _ t, dispatch_log _ t,
    dispatch_log _ t⟩

/-- C10: the Debug formatting of a Client is determined by its model
alone — two clients with equal model and different api_key format
identically — and changing the api_key never changes the output, so the
key never contributes to it. -/
theorem debug_hides_api_key :
    (∀ c1 c2 : Client, c1.model = c2.model →
      clientDebugFmt c1 = clientDebugFmt c2) ∧
    (∀ (c : Client) (k : String),
      clientDebugFmt { c with api_key := k } = clientDebugFmt c) := by
  constructor
  · intro c1 c2 h
    unfold clientDebugFmt
    rw [h]
  · intro c k
    rfl

/-- C10 witness: two clients with the same model and different api keys
format identically. -/
theorem debug_hides_api_key_witness :
    (Client.new "secret-key-1" "m").model
      = (Client.new "secret-key-2" "m").model ∧
    clientDebugFmt (Client.new "secret-key-1" "m")
      = clientDebugFmt (Client.new "secret-key-2" "m") :=
  ⟨rfl, debug_hides_api_key.1 _ _ rfl⟩
